import Mathlib

/-!
Verification of `crossbar/common/twisted/endpoint.py` (transport endpoint
factory of the crossbar repository).

The Python module is shallowly embedded: configuration dictionaries become an
inductive type of Python-like values, the file system and the observable
side effects (file reads/writes/removals, socket binds, Tor control-protocol
steps, log warnings) become an explicit `World` state threaded through an
exception+state monad `M`, and each Python function of the module becomes a
Lean function of the same name over that monad.  External collaborators
(OpenSSL PEM parsing, Twisted endpoint classes, txtorcon) are modelled as
oracles or as constructors that capture exactly the arguments the source
passes to them.
-/

namespace Crossbar

/-- A Python value, as stored in a configuration dictionary.  Dictionaries are
association lists with unique keys (first binding wins, as in CPython). -/
inductive PyVal : Type where
  | str : String → PyVal
  | int : Int → PyVal
  | bool : Bool → PyVal
  | pynone : PyVal
  | list : List PyVal → PyVal
  | dict : List (String × PyVal) → PyVal

/-- A Python dictionary: association list from string keys to values. -/
abbrev Dict := List (String × PyVal)

/-- Model of `d[k]` lookup returning an `Option` (first binding wins). -/
def lookupD (d : Dict) (k : String) : Option PyVal :=
  match d with
  | [] => none
  | (k₂, v) :: rest => if k₂ = k then some v else lookupD rest k

/-- Model of `k in d` (Python key-membership test). -/
def containsD (d : Dict) (k : String) : Bool :=
  (lookupD d k).isSome

/-- Model of `d.get(k, default)` (Python `dict.get`). -/
def getD (d : Dict) (k : String) (default : PyVal) : PyVal :=
  (lookupD d k).getD default

/-- Model of `d[k] = v` (Python assignment): replace the first binding of `k`, else
append a new binding at the end, as CPython insertion order does. -/
def setD (d : Dict) (k : String) (v : PyVal) : Dict :=
  match d with
  | [] => [(k, v)]
  | (k₂, v₂) :: rest => if k₂ = k then (k₂, v) :: rest else (k₂, v₂) :: setD rest k v

/-- Whitespace characters stripped by Python `str.strip()`. -/
def isWSChar (c : Char) : Bool :=
  c = ' ' || c = '\t' || c = '\n' || c = '\r' || c = Char.ofNat 11 || c = Char.ofNat 12

/-- Python `str.strip()` (no arguments): drop leading and trailing
whitespace. -/
def pyStrip (s : String) : String :=
  String.mk (((s.data.dropWhile isWSChar).reverse.dropWhile isWSChar).reverse)

/-- The numeric value of a decimal digit character. -/
def digitVal (c : Char) : Option Nat :=
  if 48 ≤ c.toNat && c.toNat ≤ 57 then some (c.toNat - 48) else none

/-- Accumulate a decimal digit string into a number (`none` on a non-digit). -/
def digitsToNat : List Char → Nat → Option Nat
  | [], acc => some acc
  | c :: rest, acc =>
    match digitVal c with
    | some d => digitsToNat rest (acc * 10 + d)
    | none => none

/-- Python `int(s)` on a string: optional surrounding whitespace, optional
sign, one or more decimal digits. -/
def pyParseInt (s : String) : Option Int :=
  match (pyStrip s).data with
  | [] => none
  | c :: rest =>
    if c = '-' then
      match rest with
      | [] => none
      | _ => (digitsToNat rest 0).map (fun n => -(n : Int))
    else if c = '+' then
      match rest with
      | [] => none
      | _ => (digitsToNat rest 0).map (fun n => (n : Int))
    else
      (digitsToNat (c :: rest) 0).map (fun n => (n : Int))

/-- Decimal digits of a natural number, most significant first (`fuel`
bounds the recursion; any `fuel > n` is exact). -/
def natDigitsAux : Nat → Nat → List Char
  | 0, _ => []
  | fuel + 1, n => if n = 0 then [] else natDigitsAux fuel (n / 10) ++ [Char.ofNat (48 + n % 10)]

/-- Decimal rendering of an integer (`str(n)`). -/
def intToString (n : Int) : String :=
  match n with
  | .ofNat m => if m = 0 then "0" else String.mk (natDigitsAux (m + 1) m)
  | .negSucc m => "-" ++ String.mk (natDigitsAux (m + 2) (m + 1))

/-- Python `s.endswith(suffix)`. -/
def strEndsWith (s sfx : String) : Bool :=
  List.isSuffixOf sfx.data s.data

/-- Python `str(x)`, for the values this module applies it to. -/
def pyStr : PyVal → String
  | .str s => s
  | .int n => intToString n
  | .bool b => if b then "True" else "False"
  | .pynone => "None"
  | .list _ => "<list>"
  | .dict _ => "<dict>"

/-- Python truthiness (`bool(x)`). -/
def pyTruthy : PyVal → Bool
  | .str s => !s.data.isEmpty
  | .int n => n != 0
  | .bool b => b
  | .pynone => false
  | .list xs => !xs.isEmpty
  | .dict xs => !xs.isEmpty

/-- Python `v == s` for a value compared against a string literal, as in the
dispatch `config[..type..] == ..tcp..` (values of other runtime types compare
unequal to a string). -/
def pyEqStr (v : PyVal) (s : String) : Bool :=
  match v with
  | .str t => t == s
  | _ => false

/-- Errors raised by the embedded code.  The Python module raises plain
`Exception`s, `KeyError`s from missing dictionary keys, `IOError`s from
missing files, and crypto/parse errors from the OpenSSL layer; the spec
groups these into ConfigurationError / CryptoLoadError / NetworkError. -/
inductive PErr : Type where
  | keyError (key : String)
  | typeError (msg : String)
  | valueError (msg : String)
  | ioError (path : String)
  | cryptoError (path : String)
  | networkError (msg : String)
  | exception (msg : String)
deriving DecidableEq, Repr

/-- Observable side effects, recorded in order of occurrence. -/
inductive Event : Type where
  | fileRead (path : String)
  | fileWrite (path : String)
  | fileRemove (path : String)
  | bindSocket (iface : String) (port : Int)
  | bindUnix (path : String)
  | listenString (descriptor : PyVal)
  | connectSocket (descriptor : String)
  | torConnect
  | torPublish (extPort : PyVal) (localPort : Int)
  | logWarn (msg : String)

/-- The world the module interacts with: a file system (path ↦ contents), an
environment-variable table, the ordered trace of observable effects, and the
oracle data of the operating system and the local Tor daemon. -/
structure World : Type where
  /-- File system: association list, path to file contents. -/
  fs : List (String × String)
  /-- Environment variables. -/
  env : List (String × String)
  /-- Ordered trace of observable side effects. -/
  events : List Event
  /-- TCP ports already bound by other processes (used to decide whether a
  bind succeeds and which ports are free). -/
  boundPorts : List Int
  /-- Next port the OS hands out for a port-0 / free-port request. -/
  nextPort : Int
  /-- Whether connecting to the Tor control endpoint succeeds. -/
  torConnectOk : Bool
  /-- Whether the onion-service publication (ADD_ONION) succeeds. -/
  torCreateOk : Bool
  /-- The private key the Tor daemon generates for a fresh onion service. -/
  torNewKey : String
  /-- The hostname (.onion address) of the published service. -/
  torHostname : String

/-- File-system lookup (first binding wins). -/
def fsLookup (fs : List (String × String)) (path : String) : Option String :=
  match fs with
  | [] => none
  | (p, c) :: rest => if p = path then some c else fsLookup rest path

/-- File-system update: overwrite the first binding, else append. -/
def fsWrite (fs : List (String × String)) (path c : String) : List (String × String) :=
  match fs with
  | [] => [(path, c)]
  | (p, c₂) :: rest => if p = path then (p, c) :: rest else (p, c₂) :: fsWrite rest path c

/-- File-system removal of all bindings of a path. -/
def fsRemove (fs : List (String × String)) (path : String) : List (String × String) :=
  match fs with
  | [] => []
  | (p, c) :: rest => if p = path then fsRemove rest path else (p, c) :: fsRemove rest path

/-- The exception + state monad in which the embedded code runs: the result is
either a value or a raised error, plus the final world (effects performed
before a raise persist). -/
abbrev M (α : Type) : Type := World → Except PErr α × World

instance instMonadM : Monad M where
  pure a := fun w => (.ok a, w)
  bind x f := fun w =>
    match x w with
    | (.ok a, w₂) => f a w₂
    | (.error e, w₂) => (.error e, w₂)

/-- Raise an error. -/
def throwM {α : Type} (e : PErr) : M α := fun w => (.error e, w)

/-- Record an observable effect. -/
def emit (ev : Event) : M Unit := fun w => (.ok (), { w with events := w.events ++ [ev] })

/-- Read the current world. -/
def getWorld : M World := fun w => (.ok w, w)

/-- Model of `open(path).read()`: return the contents, recording the read; a missing
file raises an IO error (as Python `open` does). -/
def readFile (path : String) : M String := fun w =>
  match fsLookup w.fs path with
  | some c => (.ok c, { w with events := w.events ++ [.fileRead path] })
  | none => (.error (.ioError path), w)

/-- Model of `open(path, 'w').write(c)`: write contents, recording the write. -/
def writeFile (path c : String) : M Unit := fun w =>
  (.ok (), { w with fs := fsWrite w.fs path c, events := w.events ++ [.fileWrite path] })

/-- Model of `os.path.exists(path)` / `FilePath.exists()`. -/
def pathExists (path : String) : M Bool := fun w =>
  (.ok (fsLookup w.fs path).isSome, w)

/-- Model of `FilePath.remove()`: delete the file, recording the removal. -/
def removeFile (path : String) : M Unit := fun w =>
  (.ok (), { w with fs := fsRemove w.fs path, events := w.events ++ [.fileRemove path] })

/-- Model of `environ[name]`: environment lookup, raising `KeyError` when unset. -/
def getEnv (name : String) : M String := fun w =>
  match fsLookup w.env name with
  | some v => (.ok v, w)
  | none => (.error (.keyError name), w)

/-- Model of `config[k]`: dictionary access, raising `KeyError` when the key is
missing. -/
def getItem (d : Dict) (k : String) : M PyVal :=
  match lookupD d k with
  | some v => pure v
  | none => throwM (.keyError k)

/-- Python `int(x)`: identity on ints, 0/1 on bools, decimal parse on strings
(`ValueError` when unparsable), `TypeError` otherwise. -/
def pyInt : PyVal → M Int
  | .int n => pure n
  | .bool b => pure (if b then 1 else 0)
  | .str s =>
    match pyParseInt s with
    | some n => pure n
    | none => throwM (.valueError ("invalid literal for int: " ++ s))
  | _ => throwM (.typeError "int() argument must be a string or a number")

/-- Expect a Python string value (`TypeError` otherwise). -/
def expectStr : PyVal → M String
  | .str s => pure s
  | _ => throwM (.typeError "expected str")

/-- Expect a Python list value (iteration over a non-list is a `TypeError`). -/
def expectList : PyVal → M (List PyVal)
  | .list xs => pure xs
  | _ => throwM (.typeError "expected list")

/-- Expect a Python dict value (`TypeError` otherwise). -/
def expectDict : PyVal → M Dict
  | .dict d => pure d
  | _ => throwM (.typeError "expected dict")

/-- An OpenSSL private-key object, abstractly: the PEM data it was parsed
from. -/
structure Key : Type where
  pem : String
deriving DecidableEq, Repr

/-- An OpenSSL X.509 certificate object, abstractly. -/
structure Cert : Type where
  pem : String
deriving DecidableEq, Repr

/-- An OpenSSL Diffie-Hellman parameter object, abstractly. -/
structure DHParams : Type where
  pem : String
deriving DecidableEq, Repr

/-- External crypto and OS primitives the module calls but does not define:
PEM parsers from pyOpenSSL/Twisted (`KeyPair.load`, `Certificate.loadPEM`,
`crypto.load_certificate`, `DiffieHellmanParameters.fromFile`) and
`os.path.expandvars`.  Each parser returns `none` exactly when the real
primitive would raise on that input. -/
structure Ext : Type where
  loadKeyPem : String → Option Key
  loadCertPem : String → Option Cert
  loadDHParams : String → Option DHParams
  expandvars : String → String

/-- Model of `os.path.isabs` (POSIX). -/
def isabs (p : String) : Bool :=
  match p.data with
  | c :: _ => c = '/'
  | [] => false

/-- Model of `os.path.join` (two-argument POSIX form): an absolute second component
discards the first. -/
def pathJoin (a b : String) : String :=
  if isabs b then b else a ++ "/" ++ b

/-- Model of `abspath(join(cbdir, fname))`: normalization by `abspath` is the identity
on the already-clean paths this module builds. -/
def absJoin (cbdir fname : String) : String :=
  pathJoin cbdir fname

/-- Parse PEM key data, raising a crypto error on malformed input
(`KeyPair.load(data, FILETYPE_PEM)`). -/
def loadKeyPemM (ext : Ext) (data path : String) : M Key :=
  match ext.loadKeyPem data with
  | some k => pure k
  | none => throwM (.cryptoError path)

/-- Parse PEM certificate data, raising a crypto error on malformed input
(`Certificate.loadPEM` / `crypto.load_certificate`). -/
def loadCertPemM (ext : Ext) (data path : String) : M Cert :=
  match ext.loadCertPem data with
  | some c => pure c
  | none => throwM (.cryptoError path)

/-- Split a character list at every occurrence of a separator. -/
def splitTokens (sep : Char) : List Char → List Char → List (List Char)
  | [], acc => [acc.reverse]
  | c :: rest, acc =>
    if c = sep then acc.reverse :: splitTokens sep rest []
    else splitTokens sep rest (c :: acc)

/-- Model of `AcceptableCiphers.fromOpenSSLCipherString`: an OpenSSL cipher
string made of explicit suite names separated by `:` denotes exactly the
listed suites, in order (empty components are inert). -/
def fromOpenSSLCipherString (s : String) : List String :=
  ((splitTokens ':' s.data []).filter (fun cs => !cs.isEmpty)).map (fun cs => String.mk cs)

/-- The hardened default cipher string of `_create_tls_server_context`
(the adjacent Python string literals, concatenated). -/
def defaultCipherString : String :=
  "ECDHE-RSA-AES128-GCM-SHA256:" ++
  "DHE-RSA-AES128-GCM-SHA256:" ++
  "ECDHE-RSA-AES128-SHA256:" ++
  "DHE-RSA-AES128-SHA256:" ++
  "ECDHE-RSA-AES128-SHA:" ++
  "DHE-RSA-AES128-SHA:"

/-- TLS protocol versions (`twisted.internet._sslverify.TLSVersion`). -/
inductive TLSVer : Type where
  | SSLv3 | TLSv1_0 | TLSv1_1 | TLSv1_2 | TLSv1_3
deriving DecidableEq, Repr

/-- A server-side TLS context: the `CertificateOptions` object, capturing
exactly the keyword arguments `_create_tls_server_context` passes to the
`CertificateOptions` constructor. -/
structure ServerCtx : Type where
  privateKey : Key
  certificate : Cert
  extraCertChain : Option (List Cert)
  verify : Bool
  caCerts : Option (List Cert)
  dhParameters : Option DHParams
  acceptableCiphers : List String
  raiseMinimumTo : TLSVer
  enableSingleUseKeys : Bool
  enableSessions : Bool
  enableSessionTickets : Bool
  fixBrokenPeers : Bool
deriving DecidableEq, Repr

/-- Load, in order, the certificate files named by a configured list
(pattern of the `chain_certificates` and `ca_certificates` loops). -/
def loadCertFiles (ext : Ext) (cbdir : String) : List PyVal → M (List Cert)
  | [] => pure []
  | f :: rest => do
    let fname ← expectStr f
    let path := absJoin cbdir fname
    let data ← readFile path
    let c ← loadCertPemM ext data path
    let cs ← loadCertFiles ext cbdir rest
    pure (c :: cs)

/-- The `if <key> in config:` certificate-list pattern shared by the
`chain_certificates` and `ca_certificates` blocks (of both context
builders): absent key gives `None`, a present list is loaded file by
file. -/
def loadOptionalCertList (ext : Ext) (cbdir : String) :
    Option PyVal → M (Option (List Cert))
  | some v => do
    let fnames ← expectList v
    let certs ← loadCertFiles ext cbdir fnames
    pure (some certs)
  | none => pure none

/-- The cipher choice of `_create_tls_server_context`: the explicit
configured suite string when `ciphers` is present, else the hardened
default string. -/
def chooseAcceptableCiphers : Option PyVal → M (List String)
  | some v => do
    -- using explicit TLS ciphers from config
    let s ← expectStr v
    pure (fromOpenSSLCipherString s)
  | none =>
    -- using secure default TLS ciphers
    pure (fromOpenSSLCipherString defaultCipherString)

/-- The `dhparam` block of `_create_tls_server_context`: load the configured
Diffie-Hellman parameter file, or warn and go without. -/
def loadOptionalDHParams (ext : Ext) (cbdir : String) :
    Option PyVal → M (Option DHParams)
  | some v => do
    let fname ← expectStr v
    let dhpath := absJoin cbdir fname
    let data ← readFile dhpath
    match ext.loadDHParams data with
    | some dh => pure (some dh)
    | none => throwM (.cryptoError dhpath)
  | none => do
    emit (.logWarn "No OpenSSL DH parameter file set - DH cipher modes will be deactive!")
    pure none

/-- Model of `_create_tls_server_context(config, cbdir, log)`: create a
`CertificateOptions` object for use with TLS listening endpoints. -/
def _create_tls_server_context (ext : Ext) (config : Dict) (cbdir : String) :
    M ServerCtx := do
  -- server private key
  let keyName ← expectStr (← getItem config "key")
  let key_filepath := absJoin cbdir keyName
  let keyData ← readFile key_filepath
  -- server certificate (but only the server cert, no chain certs)
  let certName ← expectStr (← getItem config "certificate")
  let cert_filepath := absJoin cbdir certName
  let certData ← readFile cert_filepath
  let key ← loadKeyPemM ext keyData key_filepath
  let cert ← loadCertPemM ext certData cert_filepath
  -- list of certificates that complete your verification chain
  let extra_certs ← loadOptionalCertList ext cbdir (lookupD config "chain_certificates")
  -- list of certificate authority certificate objects to use to verify the
  -- peer certificate
  let ca_certs ← loadOptionalCertList ext cbdir (lookupD config "ca_certificates")
  -- ciphers we accept
  let crossbar_ciphers ← chooseAcceptableCiphers (lookupD config "ciphers")
  -- DH modes require a parameter file
  let dh_params ← loadOptionalDHParams ext cbdir (lookupD config "dhparam")
  pure {
    privateKey := key
    certificate := cert
    extraCertChain := extra_certs
    verify := ca_certs.isSome
    caCerts := ca_certs
    dhParameters := dh_params
    acceptableCiphers := crossbar_ciphers
    -- Disable SSLv3 and TLSv1 -- only allow TLSv1.1 or higher
    raiseMinimumTo := .TLSv1_1
    -- TLS hardening
    enableSingleUseKeys := true
    enableSessions := false
    enableSessionTickets := false
    fixBrokenPeers := false
  }

/-- A client-side TLS context: the object `optionsForClientTLS` returns,
capturing the arguments `_create_tls_client_context` passes to it.
`trustRoot = none` defers to the platform trust store. -/
structure ClientCtx : Type where
  hostname : PyVal
  trustRoot : Option (List Cert)
  clientCertificate : Option (Cert × Key)

/-- The client key/cert block of `_create_tls_client_context`: a configured
`key` without `certificate` is fatal; a `certificate` without `key` only
warns and uses no client certificate. -/
def resolveClientCert (ext : Ext) (config : Dict) (cbdir : String) :
    M (Option (Cert × Key)) :=
  match lookupD config "key" with
  | some kv =>
    if containsD config "certificate" then do
      let keyName ← expectStr kv
      let key_fname := absJoin cbdir keyName
      let keyData ← readFile key_fname
      let private_key ← loadKeyPemM ext keyData key_fname
      let certName ← expectStr (← getItem config "certificate")
      let cert_fname := absJoin cbdir certName
      let certData ← readFile cert_fname
      let cert ← loadCertPemM ext certData cert_fname
      pure (some (cert, private_key))
    else
      throwM (.exception "TLS client key present, but certificate missing")
  | none => do
    warnCertWithoutKey config
    pure none
where
  /-- The `log.warn` of the certificate-without-key case. -/
  warnCertWithoutKey (config : Dict) : M Unit :=
    if containsD config "certificate" then
      emit (.logWarn "TLS client certificate present, but key is missing")
    else
      pure ()

/-- Model of `_create_tls_client_context(config, cbdir, log)`: create a client TLS
context for use with TLS connecting endpoints. -/
def _create_tls_client_context (ext : Ext) (config : Dict) (cbdir : String) :
    M ClientCtx := do
  -- server hostname: the expected name of the remote host
  let hostname ← getItem config "hostname"
  -- explicit trust (certificate) root
  let ca_certs ← loadOptionalCertList ext cbdir (lookupD config "ca_certificates")
  -- client key/cert to use
  let client_cert ← resolveClientCert ext config cbdir
  pure { hostname := hostname, trustRoot := ca_certs, clientCertificate := client_cert }

/-- Model of `_ensure_absolute(fname, cbdir)`. -/
def _ensure_absolute (fname cbdir : String) : String :=
  if isabs fname then fname else absJoin cbdir fname

/-- Model of `_HAS_TLS`: in the modelled runtime the TLS packages (pyOpenSSL and the
Twisted SSL endpoints) import successfully. -/
def _HAS_TLS : Bool := true

/-- Expect a Python int value (the OS socket layer refuses non-integer
ports with a `TypeError`). -/
def expectInt : PyVal → M Int
  | .int n => pure n
  | _ => throwM (.typeError "an integer is required")

/-- Append a warning to the trace when the wrapped computation raises, then
re-raise (the `try/except: log.warn(...); raise` pattern). -/
def warnOnError {α : Type} (msg : String) (m : M α) : M α := fun w =>
  match m w with
  | (.ok a, w₂) => (.ok a, w₂)
  | (.error e, w₂) => (.error e, { w₂ with events := w₂.events ++ [.logWarn msg] })

/-- Model of `try: open(path).read() except (IOError, OSError): None` (the onion
private-key read at endpoint construction). -/
def tryReadFile (path : String) : M (Option String) := fun w =>
  match fsLookup w.fs path with
  | some c => (.ok (some c), { w with events := w.events ++ [.fileRead path] })
  | none => (.ok none, w)

/-- A connecting (client) endpoint: one constructor per Twisted endpoint
class the module instantiates, capturing exactly the arguments passed. -/
inductive ConnectEndpoint : Type where
  /-- Model of `SSL4ClientEndpoint(reactor, host, port, context, timeout=timeout)`. -/
  | ssl4Client (host : String) (port : Int) (context : ClientCtx) (timeout : Int)
  /-- Model of `TCP4ClientEndpoint(reactor, host, port, timeout=timeout)`. -/
  | tcp4Client (host : String) (port : Int) (timeout : Int)
  /-- Model of `TCP6ClientEndpoint(reactor, host, port, timeout=timeout)`. -/
  | tcp6Client (host : String) (port : Int) (timeout : Int)
  /-- Model of `UNIXClientEndpoint(reactor, path, timeout=timeout)`. -/
  | unixClient (path : String) (timeout : Int)
  /-- Model of `clientFromString(reactor, config[..client_string..])`: the descriptor
  is handed unchanged to the generic Twisted endpoint-string parser. -/
  | clientString (descriptor : PyVal)
  /-- Model of `TCP4ClientEndpoint(reactor, "127.0.0.1", socks_port)` (the local SOCKS
  proxy endpoint, with Twisted default timeout). -/
  | socksTcp4Client (host : String) (port : PyVal)
  /-- Model of `txtorcon.TorClientEndpoint(host, port, socks_endpoint=…, use_tls=tls)`. -/
  | torClient (host : PyVal) (port : PyVal) (socksEndpoint : ConnectEndpoint)
      (useTls : PyVal)

/-- Model of `create_connecting_endpoint_from_config(config, cbdir, reactor, log)`:
create a Twisted stream client endpoint from a transport configuration. -/
def create_connecting_endpoint_from_config (ext : Ext) (config : Dict)
    (cbdir : String) : M ConnectEndpoint := do
  let ty ← getItem config "type"
  -- a TCP endpoint
  if pyEqStr ty "tcp" then do
    -- the TCP protocol version (v4 or v6)
    let version ← pyInt (getD config "version" (.int 4))
    -- the host to connect to
    let host := pyStr (← getItem config "host")
    -- the port to connect to
    let port ← pyInt (← getItem config "port")
    -- connection timeout in seconds
    let timeout ← pyInt (getD config "timeout" (.int 10))
    if containsD config "tls" then
      if _HAS_TLS then do
        -- TLS client context
        let tlsd ← expectDict (← getItem config "tls")
        let context ← _create_tls_client_context ext tlsd cbdir
        if version = 4 then
          pure (.ssl4Client host port context timeout)
        else if version = 6 then
          throwM (.exception "TLS on IPv6 not implemented")
        else
          throwM (.exception ("invalid TCP protocol version " ++ intToString version))
      else
        throwM (.exception "TLS transport requested, but TLS packages not available:\nNone")
    else
      -- create a non-TLS client endpoint
      if version = 4 then
        pure (.tcp4Client host port timeout)
      else if version = 6 then
        pure (.tcp6Client host port timeout)
      else
        throwM (.exception ("invalid TCP protocol version " ++ intToString version))
  -- a Unix Domain Socket endpoint
  else if pyEqStr ty "unix" then do
    -- the path
    let p ← expectStr (← getItem config "path")
    let path := absJoin cbdir p
    -- connection timeout in seconds
    let timeout ← pyInt (getD config "timeout" (.int 10))
    pure (.unixClient path timeout)
  else if pyEqStr ty "twisted" then do
    let s ← getItem config "client_string"
    pure (.clientString s)
  else if pyEqStr ty "tor" then do
    let host ← getItem config "host"
    let port ← getItem config "port"
    let socks_port ← getItem config "tor_socks_port"
    let tls := getD config "tls" (.bool false)
    warnIfCleartextTor tls host
    let socks_endpoint := ConnectEndpoint.socksTcp4Client "127.0.0.1" socks_port
    pure (.torClient host port socks_endpoint tls)
  else
    throwM (.exception ("invalid endpoint type " ++ pyStr ty))
where
  /-- Model of `if not tls and not host.endswith('.onion'): log.warn(...)` — the
  `host.endswith` attribute access is only reached when `tls` is falsy. -/
  warnIfCleartextTor (tls host : PyVal) : M Unit :=
    if !pyTruthy tls then do
      let h ← expectStr host
      if !strEndsWith h ".onion" then
        emit (.logWarn "Non-TLS connection traversing Tor network; end-to-end encryption advised")
      else
        pure ()
    else
      pure ()

/-- A listening (server) endpoint: one constructor per Twisted endpoint
class (or local class) the module instantiates, capturing the arguments
passed. -/
inductive ListenEndpoint : Type where
  /-- Model of `SSL4ServerEndpoint(reactor, port, context, backlog=…, interface=…)`. -/
  | ssl4Server (port : PyVal) (context : ServerCtx) (backlog : Int) (interface : String)
  /-- Model of `TCP4ServerEndpoint(reactor, port, backlog=…, interface=…)`. -/
  | tcp4Server (port : PyVal) (backlog : Int) (interface : String)
  /-- Model of `TCP6ServerEndpoint(reactor, port, backlog=…, interface=…)`. -/
  | tcp6Server (port : PyVal) (backlog : Int) (interface : String)
  /-- Model of `UNIXServerEndpoint(reactor, path, backlog=…)`. -/
  | unixServer (path : String) (backlog : Int)
  /-- Model of `serverFromString(reactor, config[..server_string..])`: the descriptor
  is handed unchanged to the generic Twisted endpoint-string parser. -/
  | serverString (descriptor : PyVal)
  /-- The `_EphemeralOnion` instance: captures the external onion port, the
  resolved private-key file name, the key read at construction (`none` when
  the file was unreadable), the onion version value, and the already-resolved
  Tor control endpoint. -/
  | ephemeralOnion (port : PyVal) (privateKeyFname : String)
      (privateKey : Option String) (version : PyVal)
      (torControlEp : ConnectEndpoint)

/-- Resolution of the configured listening-port value: a string names an
environment variable (dropping the leading marker character) whose value is
parsed as an int — on failure a warning is logged and the exception
re-raised; any other value is taken as is. -/
def readListeningPort (portv : PyVal) : M PyVal :=
  match portv with
  | .str s =>
    warnOnError "Could not read listening port from env var" (do
      let v ← getEnv (String.mk (s.data.drop 1))
      let n ← pyInt (.str v)
      pure (PyVal.int n))
  | v => pure v

/-- Resolution of `str(config.get('interface', '').strip())`: stripping a
non-string raises. -/
def stripInterface (v : PyVal) : M String :=
  match v with
  | .str s => pure (pyStrip s)
  | _ => throwM (.typeError "strip: not a string")

/-- Removal of a stale filesystem entry before a Unix-socket bind (the
`if path.exists(): path.remove()` block). -/
def removeIfExists (path : String) : M Unit := do
  let ex ← pathExists path
  if ex then
    removeFile path
  else
    pure ()

/-- Model of `create_listening_endpoint_from_config(config, cbdir, reactor, log)`:
create a Twisted stream server endpoint from a transport configuration. -/
def create_listening_endpoint_from_config (ext : Ext) (config : Dict)
    (cbdir : String) : M ListenEndpoint := do
  let ty ← getItem config "type"
  -- a TCP endpoint
  if pyEqStr ty "tcp" then do
    -- the TCP protocol version (v4 or v6)
    let version ← pyInt (getD config "version" (.int 4))
    -- the listening port
    let port ← readListeningPort (← getItem config "port")
    -- the listening interface
    let interface ← stripInterface (getD config "interface" (.str ""))
    -- the TCP accept queue depth
    let backlog ← pyInt (getD config "backlog" (.int 50))
    if containsD config "tls" then
      -- create a TLS server endpoint
      if _HAS_TLS then do
        -- TLS server context
        let tlsd ← expectDict (← getItem config "tls")
        let context ← _create_tls_server_context ext tlsd cbdir
        if version = 4 then
          pure (.ssl4Server port context backlog interface)
        else if version = 6 then
          throwM (.exception "TLS on IPv6 not implemented")
        else
          throwM (.exception ("invalid TCP protocol version " ++ intToString version))
      else
        throwM (.exception "TLS transport requested, but TLS packages not available:\nNone")
    else
      -- create a non-TLS server endpoint
      if version = 4 then
        pure (.tcp4Server port backlog interface)
      else if version = 6 then
        pure (.tcp6Server port backlog interface)
      else
        throwM (.exception ("invalid TCP protocol version " ++ intToString version))
  -- a Unix Domain Socket endpoint
  else if pyEqStr ty "unix" then do
    -- the accept queue depth
    let backlog ← pyInt (getD config "backlog" (.int 50))
    -- the path
    let p ← expectStr (← getItem config "path")
    let path := pathJoin cbdir (ext.expandvars p)
    -- if there is already something there, delete it
    removeIfExists path
    pure (.unixServer path backlog)
  -- twisted endpoint-string
  else if pyEqStr ty "twisted" then do
    let s ← getItem config "server_string"
    pure (.serverString s)
  -- tor endpoint
  else if pyEqStr ty "onion" then do
    let port ← getItem config "port"
    let pkf ← expectStr (← getItem config "private_key_file")
    let private_key_fname := _ensure_absolute pkf cbdir
    let tced ← expectDict (← getItem config "tor_control_endpoint")
    let tor_control_ep ← create_connecting_endpoint_from_config ext tced cbdir
    let version := getD config "version" (.int 3)
    let data ← tryReadFile private_key_fname
    let private_key := data.map pyStrip
    pure (.ephemeralOnion port private_key_fname private_key version tor_control_ep)
  else
    throwM (.exception ("invalid endpoint type " ++ pyStr ty))

/-- A bound, accepting listening port (the `IListeningPort` handle), here
identified by its bound TCP port number (0 for non-TCP listeners). -/
structure ListeningPort : Type where
  port : Int
deriving DecidableEq, Repr

/-- A Twisted `Deferred` as the caller observes it once fired: either a
success value or an asynchronous failure. -/
inductive Deferred (α : Type) : Type where
  | succeed (a : α)
  | fail (e : PErr)

/-- Run a computation and convert a raised error into a failed `Deferred`
(the `try/except: return defer.fail()` pattern, and equally the failure path
of a Deferred-returning Twisted call). -/
def tryDefer {α : Type} (m : M α) : M (Deferred α) := fun w =>
  match m w with
  | (.ok a, w₂) => (.ok (.succeed a), w₂)
  | (.error e, w₂) => (.ok (.fail e), w₂)

/-- Bind a TCP listening socket on an interface: port 0 asks the OS for a
fresh port; binding an already-bound port fails (`CannotListenError`). -/
def bindTcp (interface : String) (port : Int) : M Int := fun w =>
  if port = 0 then
    (.ok w.nextPort, { w with nextPort := w.nextPort + 1,
                              boundPorts := w.boundPorts ++ [w.nextPort],
                              events := w.events ++ [.bindSocket interface w.nextPort] })
  else if w.boundPorts.contains port then
    (.error (.networkError ("could not bind port " ++ intToString port)), w)
  else
    (.ok port, { w with boundPorts := w.boundPorts ++ [port],
                        events := w.events ++ [.bindSocket interface port] })

/-- Model of `txtorcon.connect(reactor, tor_control_ep)`: connect to the Tor control
endpoint; success is recorded, failure raises. -/
def torConnectM : M Unit := fun w =>
  if w.torConnectOk then
    (.ok (), { w with events := w.events ++ [.torConnect] })
  else
    (.error (.networkError "connecting to Tor control endpoint failed"), w)

/-- The hidden-service handle `tor.create_onion_service` yields: its private
key (the supplied one, or the freshly generated one when none was supplied)
and its onion hostname. -/
structure OnionService : Type where
  private_key : String
  hostname : String
deriving DecidableEq, Repr

/-- Model of `tor.create_onion_service(ports=[(port, local_port)], private_key=…,
version=…)`: request publication of the onion service; success records the
publication request, failure raises. -/
def createOnionServiceM (extPort : PyVal) (localPort : Int)
    (privateKey : Option String) : M OnionService := fun w =>
  if w.torCreateOk then
    (.ok { private_key := privateKey.getD w.torNewKey, hostname := w.torHostname },
     { w with events := w.events ++ [.torPublish extPort localPort] })
  else
    (.error (.exception "onion service creation failed"), w)

/-- Model of `endpoint.listen(proto_factory)`, as observed once the returned Deferred
fires.  For the `_EphemeralOnion` endpoint this is the inlineCallbacks body of
`_EphemeralOnion.listen`: bind a local loopback listener on an OS-assigned
port, connect to the Tor control endpoint, request publication mapping the
external onion port to the locally bound port, then persist the private key
exactly when the key file does not exist, and return the local port. -/
def ListenEndpoint.listen : ListenEndpoint → M ListeningPort
  | .ssl4Server port _ _ interface => do
    let p ← expectInt port
    let bp ← bindTcp interface p
    pure ⟨bp⟩
  | .tcp4Server port _ interface => do
    let p ← expectInt port
    let bp ← bindTcp interface p
    pure ⟨bp⟩
  | .tcp6Server port _ interface => do
    let p ← expectInt port
    let bp ← bindTcp interface p
    pure ⟨bp⟩
  | .unixServer path _ => do
    emit (.bindUnix path)
    pure ⟨0⟩
  | .serverString v => do
    emit (.listenString v)
    pure ⟨0⟩
  | .ephemeralOnion port private_key_fname private_key _ _ => do
    -- we do not care which local TCP port we listen on, but we do need to
    -- know it
    let target_port ← bindTcp "127.0.0.1" 0
    torConnectM
    let hs ← createOnionServiceM port target_port private_key
    -- if it is new, store our private key
    persistKeyIfNew private_key_fname hs.private_key
    pure ⟨target_port⟩
where
  /-- Persist the resolved private key when the key file does not already
  exist (the `if not exists(private_key_fname):` block). -/
  persistKeyIfNew (fname key : String) : M Unit := do
    let ex ← pathExists fname
    if !ex then
      writeFile fname key
    else
      pure ()

/-- A live outbound connection handle (`IProtocol`), identified by the
endpoint descriptor it came from. -/
structure Connection : Type where
  descriptor : String
deriving DecidableEq, Repr

/-- A rendering of the endpoint a connect attempt targets. -/
def ConnectEndpoint.descriptor : ConnectEndpoint → String
  | .ssl4Client h p _ _ => "ssl:" ++ h ++ ":" ++ intToString p
  | .tcp4Client h p _ => "tcp4:" ++ h ++ ":" ++ intToString p
  | .tcp6Client h p _ => "tcp6:" ++ h ++ ":" ++ intToString p
  | .unixClient p _ => "unix:" ++ p
  | .clientString v => "string:" ++ pyStr v
  | .socksTcp4Client h p => "tcp4:" ++ h ++ ":" ++ pyStr p
  | .torClient h p _ _ => "tor:" ++ pyStr h ++ ":" ++ pyStr p

/-- Model of `endpoint.connect(factory)`, as observed once the Deferred fires:
the connect attempt is recorded and yields the connection handle. -/
def ConnectEndpoint.connect (ep : ConnectEndpoint) : M Connection := do
  emit (.connectSocket ep.descriptor)
  pure ⟨ep.descriptor⟩

/-- Modelled from the spec: `first_free_tcp_port` of `crossbar._util` is not
in the excerpt.  §4.6: “if a port range is configured, scan it for the first
free port on the target interface”; §8: with every port of the inclusive
range `[low, high]` already bound, resolution fails with NetworkError. -/
def first_free_tcp_port (host : String) (lo hi : Int) : M Int := fun w =>
  match ((List.range (hi + 1 - lo).toNat).map (fun i => lo + (i : Int))).find?
      (fun p => !w.boundPorts.contains p) with
  | some p => (.ok p, w)
  | none => (.error (.networkError ("no free port in range on " ++ host)), w)

/-- Modelled from the spec: `get_free_tcp_port` of `crossbar._util` is not in
the excerpt.  §4.6: “else if no port is configured, ask the OS for any free
port”. -/
def get_free_tcp_port (_host : String) : M Int := fun w =>
  (.ok w.nextPort, { w with nextPort := w.nextPort + 1 })

/-- Modelled from the spec: `CustomTCPPort` / `CustomTCPTLSPort` of
`crossbar.common.twisted.sharedport` are not in the excerpt.  §4.6: the
shared-port listener creates the listening socket directly with the platform
reuse / user-timeout socket options; `startListening` binds immediately and
fails on bind failure.  The handle captures the constructor arguments. -/
structure SharedPort : Type where
  port : Int
  backlog : Int
  interface : String
  shared : PyVal
  user_timeout : PyVal
  tlsContext : Option ServerCtx

/-- Modelled from the spec: `CustomTCPPort.startListening` binds the socket
immediately, raising on bind failure (§4.6). -/
def SharedPort.startListening (lp : SharedPort) : M Int :=
  bindTcp lp.interface lp.port

/-- Reading the configured inclusive port range `[low, high]` (any other
shape fails in the range scan). -/
def parsePortrange (pr : PyVal) : M (Int × Int) :=
  match pr with
  | .list [.int lo, .int hi] => pure (lo, hi)
  | _ => throwM (.typeError "portrange must be a pair of ints")

/-- The condition `'port' not in config or config['port'] is None`. -/
def needsFreePort : Option PyVal → Bool
  | none => true
  | some .pynone => true
  | some _ => false

/-- The port-resolution prologue of `create_listening_port_from_config`:
`config[..port..]` is assigned before any socket of the transport is
created.  The source mutates the caller's dict in place; the embedding
passes the updated dict explicitly. -/
def resolve_listening_port (config : Dict) : M Dict := do
  if containsD config "portrange" then do
    -- first free port in given range
    let pr ← getItem config "portrange"
    let lh ← parsePortrange pr
    let p ← first_free_tcp_port (pyStr (getD config "interface" (.str ""))) lh.1 lh.2
    pure (setD config "port" (.int p))
  else
    if needsFreePort (lookupD config "port") then do
      -- random free port
      let p ← get_free_tcp_port (pyStr (getD config "interface" (.str "")))
      pure (setD config "port" (.int p))
    else
      pure config

/-- The shared-path dispatch condition of
`create_listening_port_from_config`: a `tcp` config that requests socket
sharing (`shared` truthy) or sets a `user_timeout` other than `None` is
handled by the direct shared-socket path instead of the generic endpoint
path. -/
def usesSharedPortPath (config : Dict) (ty : PyVal) : Bool :=
  -- the TCP socket sharing option
  pyEqStr ty "tcp" &&
    (pyTruthy (getD config "shared" (.bool false)) ||
      -- the TCP socket user timeout option
      (match getD config "user_timeout" .pynone with
       | .pynone => false
       | _ => true))

/-- The shared-path construction of `create_listening_port_from_config`:
build the `CustomTCPTLSPort` / `CustomTCPPort` listening port object (raising
on a TLS-context failure, TLS-on-IPv6 or an invalid version, outside any
try/except). -/
def buildSharedPort (ext : Ext) (config : Dict) (cbdir : String)
    (sharedv user_timeout : PyVal) (version : Int) (interface : String)
    (port backlog : Int) : M SharedPort :=
  if containsD config "tls" then
    if _HAS_TLS then do
      -- TLS server context
      let tlsd ← expectDict (← getItem config "tls")
      let context ← _create_tls_server_context ext tlsd cbdir
      if version = 4 then
        pure (SharedPort.mk port backlog interface sharedv user_timeout (some context))
      else if version = 6 then
        throwM (.exception "TLS on IPv6 not implemented")
      else
        throwM (.exception ("invalid TCP protocol version " ++ intToString version))
    else
      throwM (.exception "TLS transport requested, but TLS packages not available:\nNone")
  else
    pure (SharedPort.mk port backlog interface sharedv user_timeout none)

/-- Model of `create_listening_port_from_config(config, cbdir, factory, reactor, log)`:
create a listening port from a transport configuration.  The result pairs the
returned Deferred with the configuration dict as the caller sees it after the
call (the source mutates it in place); a raised `PErr` is an exception the
caller sees synchronously, a `Deferred.fail` an asynchronous failure. -/
def create_listening_port_from_config (ext : Ext) (config : Dict)
    (cbdir : String) : M (Deferred ListeningPort × Dict) := do
  let config ← resolve_listening_port config
  let ty ← getItem config "type"
  if usesSharedPortPath config ty then do
    -- the TCP protocol version (v4 or v6)
    let version ← pyInt (getD config "version" (.int 4))
    -- the listening interface
    let interface ← stripInterface (getD config "interface" (.str ""))
    -- the listening port
    let port ← pyInt (← getItem config "port")
    -- the TCP accept queue depth
    let backlog ← pyInt (getD config "backlog" (.int 50))
    -- create a listening port
    let listening_port ← buildSharedPort ext config cbdir
      (getD config "shared" (.bool false)) (getD config "user_timeout" .pynone)
      version interface port backlog
    let d ← tryDefer (do
      let bp ← listening_port.startListening
      pure (ListeningPort.mk bp))
    pure (d, config)
  else do
    let d ← tryDefer (do
      let endpoint ← create_listening_endpoint_from_config ext config cbdir
      endpoint.listen)
    pure (d, config)

/-- Model of `create_connecting_port_from_config(config, cbdir, factory, reactor,
log)`: create a connecting port from a transport configuration.  Endpoint
construction happens outside any handler, so its errors are raised
synchronously; only the connect attempt itself is a Deferred. -/
def create_connecting_port_from_config (ext : Ext) (config : Dict)
    (cbdir : String) : M (Deferred Connection) := do
  let endpoint ← create_connecting_endpoint_from_config ext config cbdir
  tryDefer endpoint.connect

/-! ### Concrete fixtures used to exercise the definitions -/

/-- External primitives that accept every input (all PEM data parses). -/
def extW : Ext :=
  { loadKeyPem := fun s => some ⟨s⟩
    loadCertPem := fun s => some ⟨s⟩
    loadDHParams := fun s => some ⟨s⟩
    expandvars := fun s => s }

/-- A world with a key and a certificate file under `/cb`. -/
def w0 : World :=
  { fs := [("/cb/k.pem", "K"), ("/cb/c.pem", "C")]
    env := []
    events := []
    boundPorts := []
    nextPort := 1025
    torConnectOk := true
    torCreateOk := true
    torNewKey := "NEWKEY"
    torHostname := "svc.onion" }

/-- A minimal TLS server sub-config: key and certificate only. -/
def tls0 : Dict := [("key", .str "k.pem"), ("certificate", .str "c.pem")]

/-- The default-cipher list, written out. -/
def defaultCipherList : List String :=
  ["ECDHE-RSA-AES128-GCM-SHA256", "DHE-RSA-AES128-GCM-SHA256",
   "ECDHE-RSA-AES128-SHA256", "DHE-RSA-AES128-SHA256",
   "ECDHE-RSA-AES128-SHA", "DHE-RSA-AES128-SHA"]

/-- The server context built from `tls0` in `w0`. -/
def ctx0 : ServerCtx :=
  { privateKey := ⟨"K"⟩, certificate := ⟨"C"⟩, extraCertChain := none,
    verify := false, caCerts := none, dhParameters := none,
    acceptableCiphers := defaultCipherList,
    raiseMinimumTo := .TLSv1_1, enableSingleUseKeys := true,
    enableSessions := false, enableSessionTickets := false,
    fixBrokenPeers := false }

/-- The events of building a server context from `tls0` in `w0`. -/
def ctx0events : List Event :=
  [.fileRead "/cb/k.pem", .fileRead "/cb/c.pem",
   .logWarn "No OpenSSL DH parameter file set - DH cipher modes will be deactive!"]

/-- The world after building a server context from `tls0` (or from
`tlsEmptyCA`) in `w0`. -/
def w0c : World := { w0 with events := ctx0events }

/-- A TLS client sub-config with a key but no certificate. -/
def cfgKeyOnly : Dict := [("hostname", .str "h.example"), ("key", .str "k.pem")]

/-- A TLS client sub-config with a certificate but no key. -/
def cfgCertOnly : Dict := [("hostname", .str "h.example"), ("certificate", .str "c.pem")]

/-- The client context built from `cfgCertOnly`: platform trust, no client
certificate. -/
def ctxCertOnly : ClientCtx :=
  { hostname := .str "h.example", trustRoot := none, clientCertificate := none }

/-- The world after building a client context from `cfgCertOnly` in `w0`. -/
def wCertOnly : World :=
  { w0 with events := [.logWarn "TLS client certificate present, but key is missing"] }

/-- A listening config using the spec name `described` as the type tag. -/
def cfgDescribedL : Dict :=
  [("type", .str "described"), ("server_string", .str "tcp:9000")]

/-- A connecting config using the spec name `described` as the type tag. -/
def cfgDescribedC : Dict :=
  [("type", .str "described"), ("client_string", .str "tcp:host=h:port=9000")]

/-- A listening config with the code tag `twisted`. -/
def cfgTwistedL : Dict :=
  [("type", .str "twisted"), ("server_string", .str "tcp:9000")]

/-- A connecting config with the code tag `twisted`. -/
def cfgTwistedC : Dict :=
  [("type", .str "twisted"), ("client_string", .str "tcp:host=h:port=9000")]

/-- A config with an unrecognized type tag. -/
def cfgQuic : Dict := [("type", .str "quic"), ("port", .int 9000)]

/-- A listening config with a port range and no literal port. -/
def cfgRange : Dict :=
  [("type", .str "tcp"), ("portrange", .list [.int 9000, .int 9002])]

/-- The configuration dict as the caller sees it after listening-port
creation on `cfgRange`: a `port` binding has been added. -/
def cfgRangeOut : Dict :=
  [("type", .str "tcp"), ("portrange", .list [.int 9000, .int 9002]),
   ("port", .int 9000)]

/-- The world after listening-port creation on `cfgRange` in `w0`. -/
def wRangeOut : World :=
  { w0 with boundPorts := [9000], events := [.bindSocket "" 9000] }

/-- A plain tcp listening config with a literal port. -/
def cfgTcp8080 : Dict := [("type", .str "tcp"), ("port", .int 8080)]

/-- A shared tcp listening config requesting TLS on IPv6. -/
def cfgSharedTls6 : Dict :=
  [("type", .str "tcp"), ("port", .int 8443), ("shared", .bool true),
   ("version", .int 6), ("tls", .dict tls0)]

/-- A concrete ephemeral-onion listening endpoint with no key read at
construction (fresh service). -/
def onionEp : ListenEndpoint :=
  .ephemeralOnion (.int 80) "/cb/onion.key" none (.int 3)
    (.unixClient "/var/run/tor/control" 10)

/-- Model of `tls0` with a present-but-empty `ca_certificates` list. -/
def tlsEmptyCA : Dict :=
  [("key", .str "k.pem"), ("certificate", .str "c.pem"),
   ("ca_certificates", .list [])]

/-- The server context built from `tlsEmptyCA` in `w0`: peer verification is
enabled although the configured CA list is empty. -/
def ctxEmptyCA : ServerCtx :=
  { ctx0 with verify := true, caCerts := some [] }

/-! ### Reasoning toolkit for the monad `M` -/

theorem bind_def {α β : Type} (x : M α) (f : α → M β) :
    x >>= f = fun w =>
      match x w with
      | (.ok a, w₂) => f a w₂
      | (.error e, w₂) => (.error e, w₂) := rfl

theorem pure_def {α : Type} (a : α) : (pure a : M α) = fun w => (.ok a, w) := rfl

/-- Invert a successful bind into its two successful stages. -/
theorem bind_ok {α β : Type} {x : M α} {f : α → M β} {w w₂ : World} {b : β}
    (h : (x >>= f) w = (.ok b, w₂)) :
    ∃ a w₁, x w = (.ok a, w₁) ∧ f a w₁ = (.ok b, w₂) := by
  have h2 : (match x w with
      | (.ok a, w₁) => f a w₁
      | (.error e, w₁) => ((Except.error e : Except PErr β), w₁)) = (.ok b, w₂) := h
  rcases hx : x w with ⟨r, w₁⟩
  rw [hx] at h2
  cases r with
  | ok a => exact ⟨a, w₁, rfl, h2⟩
  | error e => simp at h2

/-- A successful `getItem` is a pure lookup. -/
theorem getItem_ok {d : Dict} {k : String} {w w₂ : World} {v : PyVal}
    (h : getItem d k w = (.ok v, w₂)) : lookupD d k = some v ∧ w₂ = w := by
  unfold getItem at h
  cases hl : lookupD d k <;> rw [hl] at h
  · simp [throwM] at h
  · simp [pure_def] at h
    exact ⟨by rw [h.1], h.2.symm⟩

/-- A successful `expectStr` came from a string value. -/
theorem expectStr_ok {v : PyVal} {w w₂ : World} {s : String}
    (h : expectStr v w = (.ok s, w₂)) : v = .str s ∧ w₂ = w := by
  cases v <;> simp [expectStr, pure_def, throwM] at h
  exact ⟨by rw [h.1], h.2.symm⟩

/-- A successful `expectDict` came from a dict value. -/
theorem expectDict_ok {v : PyVal} {w w₂ : World} {d : Dict}
    (h : expectDict v w = (.ok d, w₂)) : v = .dict d ∧ w₂ = w := by
  cases v <;> simp [expectDict, pure_def, throwM] at h
  exact ⟨by rw [h.1], h.2.symm⟩

/-- Characterization of every successful run of the server-context builder:
the hardening fields are the constants the source passes to
`CertificateOptions`, `verify` reflects presence of the `ca_certificates`
key, and the acceptable ciphers come from the configured `ciphers` string
when present, else from the hardened default string. -/
theorem serverCtx_ok_fields {ext : Ext} {config : Dict} {cbdir : String}
    {w w' : World} {ctx : ServerCtx}
    (h : _create_tls_server_context ext config cbdir w = (.ok ctx, w')) :
    ctx.raiseMinimumTo = .TLSv1_1 ∧
    ctx.enableSingleUseKeys = true ∧
    ctx.enableSessions = false ∧
    ctx.enableSessionTickets = false ∧
    ctx.fixBrokenPeers = false ∧
    ctx.verify = containsD config "ca_certificates" ∧
    (∀ s, lookupD config "ciphers" = some (.str s) →
      ctx.acceptableCiphers = fromOpenSSLCipherString s) ∧
    (lookupD config "ciphers" = none →
      ctx.acceptableCiphers = fromOpenSSLCipherString defaultCipherString) := by
  unfold _create_tls_server_context at h
  obtain ⟨kv, w1, h1, h⟩ := bind_ok h
  obtain ⟨keyName, w2, h2, h⟩ := bind_ok h
  obtain ⟨keyData, w3, h3, h⟩ := bind_ok h
  obtain ⟨cv, w4, h4, h⟩ := bind_ok h
  obtain ⟨certName, w5, h5, h⟩ := bind_ok h
  obtain ⟨certData, w6, h6, h⟩ := bind_ok h
  obtain ⟨key, w7, h7, h⟩ := bind_ok h
  obtain ⟨cert, w8, h8, h⟩ := bind_ok h
  obtain ⟨extra, w9, h9, h⟩ := bind_ok h
  obtain ⟨ca, w10, h10, h⟩ := bind_ok h
  obtain ⟨ciphers, w11, h11, h⟩ := bind_ok h
  obtain ⟨dh, w12, h12, h⟩ := bind_ok h
  rw [pure_def] at h
  have hctx : ctx =
      { privateKey := key, certificate := cert, extraCertChain := extra,
        verify := ca.isSome, caCerts := ca, dhParameters := dh,
        acceptableCiphers := ciphers, raiseMinimumTo := .TLSv1_1,
        enableSingleUseKeys := true, enableSessions := false,
        enableSessionTickets := false, fixBrokenPeers := false } := by
    have hfst := congrArg Prod.fst h
    simpa using hfst.symm
  subst hctx
  refine ⟨rfl, rfl, rfl, rfl, rfl, ?_, ?_, ?_⟩
  · -- verify = containsD config "ca_certificates"
    unfold containsD
    cases hca : lookupD config "ca_certificates" <;> rw [hca] at h10 <;>
      simp only [loadOptionalCertList] at h10
    · simp [pure_def] at h10
      simp [h10.1]
    · obtain ⟨fnames, wa, ha, h10⟩ := bind_ok h10
      obtain ⟨certs, wb, hb, h10⟩ := bind_ok h10
      simp [pure_def] at h10
      simp [← h10.1]
  · -- explicit ciphers
    intro s hs
    rw [hs] at h11
    simp only [chooseAcceptableCiphers] at h11
    obtain ⟨s2, wa, ha, h11⟩ := bind_ok h11
    obtain ⟨hseq, -⟩ := expectStr_ok ha
    simp [pure_def] at h11
    obtain ⟨rfl⟩ : s2 = s := by cases hseq; rfl
    simp [← h11.1]
  · -- default ciphers
    intro hs
    rw [hs] at h11
    simp only [chooseAcceptableCiphers] at h11
    simp [pure_def] at h11
    simp [← h11.1]

/-- C1: for every TLS server config processed by the server-context builder,
an explicit `ciphers` string makes the acceptable-cipher list of the built
context exactly the list parsed from that string, and an absent `ciphers`
key makes it exactly the hardened default list of six suites (no
AES256/SHA-384 variants, no ECDSA variants). -/
theorem C1_server_cipher_list {ext : Ext} {config : Dict} {cbdir : String}
    {w w' : World} {ctx : ServerCtx}
    (h : _create_tls_server_context ext config cbdir w = (.ok ctx, w')) :
    (∀ s, lookupD config "ciphers" = some (.str s) →
      ctx.acceptableCiphers = fromOpenSSLCipherString s) ∧
    (lookupD config "ciphers" = none →
      ctx.acceptableCiphers =
        ["ECDHE-RSA-AES128-GCM-SHA256", "DHE-RSA-AES128-GCM-SHA256",
         "ECDHE-RSA-AES128-SHA256", "DHE-RSA-AES128-SHA256",
         "ECDHE-RSA-AES128-SHA", "DHE-RSA-AES128-SHA"]) := by
  obtain ⟨-, -, -, -, -, -, hex, hdef⟩ := serverCtx_ok_fields h
  refine ⟨hex, fun hn => ?_⟩
  rw [hdef hn]
  decide

/-- Witness for C1: a concrete successful run with `ciphers` absent yields
exactly the six default suites. -/
theorem C1_server_cipher_list_witness :
    ctx0.acceptableCiphers =
      ["ECDHE-RSA-AES128-GCM-SHA256", "DHE-RSA-AES128-GCM-SHA256",
       "ECDHE-RSA-AES128-SHA256", "DHE-RSA-AES128-SHA256",
       "ECDHE-RSA-AES128-SHA", "DHE-RSA-AES128-SHA"] :=
  (@C1_server_cipher_list extW tls0 "/cb" w0 w0c ctx0 rfl).2 rfl

/-- Counterexample to C2 as stated: with `ca_certificates` present but
*empty*, the builder succeeds and the built context has `verify = true`,
although no CA certificate is configured (the list is not non-empty). -/
theorem C2_counterexample :
    _create_tls_server_context extW tlsEmptyCA "/cb" w0 = (.ok ctxEmptyCA, w0c) ∧
    ctxEmptyCA.verify = true ∧
    lookupD tlsEmptyCA "ca_certificates" = some (.list []) :=
  ⟨rfl, rfl, rfl⟩

/-- C2 (amended): peer-certificate verification in the built server context
is enabled iff the `ca_certificates` key is present in the config — also
when the configured list is empty. -/
theorem C2_verify_iff_ca_present {ext : Ext} {config : Dict} {cbdir : String}
    {w w' : World} {ctx : ServerCtx}
    (h : _create_tls_server_context ext config cbdir w = (.ok ctx, w')) :
    ctx.verify = containsD config "ca_certificates" :=
  ((((((serverCtx_ok_fields h).2).2).2).2).2).1

/-- Witness for C2 (amended): a concrete run without `ca_certificates` has
verification disabled. -/
theorem C2_verify_iff_ca_present_witness :
    ctx0.verify = containsD tls0 "ca_certificates" :=
  @C2_verify_iff_ca_present extW tls0 "/cb" w0 w0c ctx0 rfl

/-- C3: every built server context raises the minimum protocol version to
TLS 1.1 and is hardened: single-use ephemeral keys enabled, session-ID
caching disabled, session tickets disabled, no workarounds for
non-compliant peers. -/
theorem C3_server_hardening {ext : Ext} {config : Dict} {cbdir : String}
    {w w' : World} {ctx : ServerCtx}
    (h : _create_tls_server_context ext config cbdir w = (.ok ctx, w')) :
    ctx.raiseMinimumTo = .TLSv1_1 ∧
    ctx.enableSingleUseKeys = true ∧
    ctx.enableSessions = false ∧
    ctx.enableSessionTickets = false ∧
    ctx.fixBrokenPeers = false := by
  obtain ⟨h1, h2, h3, h4, h5, -, -, -⟩ := serverCtx_ok_fields h
  exact ⟨h1, h2, h3, h4, h5⟩

/-- Witness for C3: the hardening flags of a concrete built context. -/
theorem C3_server_hardening_witness :
    ctx0.raiseMinimumTo = .TLSv1_1 ∧
    ctx0.enableSingleUseKeys = true ∧
    ctx0.enableSessions = false ∧
    ctx0.enableSessionTickets = false ∧
    ctx0.fixBrokenPeers = false :=
  @C3_server_hardening extW tls0 "/cb" w0 w0c ctx0 rfl

/-- C4: for every TLS client config, a configured `key` without a
`certificate` makes the client-context builder fail (with the
configuration error naming the problem), once the hostname is read and the
trust root loaded; a configured `certificate` without a `key` lets the
builder succeed, the built context uses no client certificate, and the only
signal is the logged warning. -/
theorem C4_client_key_cert_asymmetry {ext : Ext} {config : Dict}
    {cbdir : String} {w : World} :
    ((lookupD config "key").isSome → lookupD config "certificate" = none →
      ∀ (hv : PyVal) (ca : Option (List Cert)) (w₁ : World),
        lookupD config "hostname" = some hv →
        loadOptionalCertList ext cbdir (lookupD config "ca_certificates") w =
          (.ok ca, w₁) →
        _create_tls_client_context ext config cbdir w =
          (.error (.exception "TLS client key present, but certificate missing"), w₁)) ∧
    (∀ (ctx : ClientCtx) (w' : World),
      lookupD config "key" = none → (lookupD config "certificate").isSome →
      _create_tls_client_context ext config cbdir w = (.ok ctx, w') →
      ctx.clientCertificate = none ∧
      Event.logWarn "TLS client certificate present, but key is missing" ∈ w'.events) := by
  constructor
  · intro hk hc hv ca w₁ hh hca
    obtain ⟨kv, hkv⟩ := Option.isSome_iff_exists.mp hk
    have hhost : getItem config "hostname" w = (.ok hv, w) := by
      unfold getItem
      rw [hh]
      simp [pure_def]
    have hres : resolveClientCert ext config cbdir w₁ =
        (.error (.exception "TLS client key present, but certificate missing"), w₁) := by
      unfold resolveClientCert
      rw [hkv]
      unfold containsD
      rw [hc]
      rfl
    simp only [_create_tls_client_context, bind_def, hhost, hca, hres]
  · intro ctx w' hk hc h
    unfold _create_tls_client_context at h
    obtain ⟨hv, w1, h1, h⟩ := bind_ok h
    obtain ⟨ca, w2, h2, h⟩ := bind_ok h
    obtain ⟨cc, w3, h3, h⟩ := bind_ok h
    rw [pure_def] at h
    have hcc : cc = none ∧ w3.events = w2.events ++
        [Event.logWarn "TLS client certificate present, but key is missing"] := by
      unfold resolveClientCert at h3
      rw [hk] at h3
      obtain ⟨u, wu, hu, h3⟩ := bind_ok h3
      have hwu : wu = { w2 with events := w2.events ++
          [Event.logWarn "TLS client certificate present, but key is missing"] } := by
        unfold resolveClientCert.warnCertWithoutKey containsD at hu
        obtain ⟨cv, hcv⟩ := Option.isSome_iff_exists.mp hc
        rw [hcv] at hu
        simp [emit] at hu
        exact hu.symm
      rw [pure_def] at h3
      refine ⟨?_, ?_⟩
      · have := congrArg Prod.fst h3
        simpa using this.symm
      · have h3w := congrArg Prod.snd h3
        simp at h3w
        rw [← h3w, hwu]
    have hctx : ctx = { hostname := hv, trustRoot := ca, clientCertificate := cc } := by
      have := congrArg Prod.fst h
      simpa using this.symm
    have hw : w' = w3 := by
      have := congrArg Prod.snd h
      simpa using this.symm
    subst hctx
    subst hw
    refine ⟨by simp [hcc.1], ?_⟩
    rw [hcc.2]
    simp

/-- Witness for C4: a concrete key-without-certificate config fails with the
configuration error, and a concrete certificate-without-key config succeeds
with no client certificate and the logged warning. -/
theorem C4_client_key_cert_asymmetry_witness :
    _create_tls_client_context extW cfgKeyOnly "/cb" w0 =
      (.error (.exception "TLS client key present, but certificate missing"), w0) ∧
    (ctxCertOnly.clientCertificate = none ∧
     Event.logWarn "TLS client certificate present, but key is missing" ∈
       wCertOnly.events) := by
  constructor
  · exact (@C4_client_key_cert_asymmetry extW cfgKeyOnly "/cb" w0).1
      rfl rfl (.str "h.example") none w0 rfl rfl
  · exact (@C4_client_key_cert_asymmetry extW cfgCertOnly "/cb" w0).2
      ctxCertOnly wCertOnly rfl rfl rfl

/-- Helper: a value different from a string literal compares unequal under
the Python `==` model. -/
theorem pyEqStr_eq_false {t : PyVal} {s : String} (h : t ≠ .str s) :
    pyEqStr t s = false := by
  cases t <;> simp [pyEqStr]
  rename_i u
  intro heq
  exact h (by rw [heq])

/-- Counterexample to C5 as stated: a config whose `type` is `described`
fails as an invalid endpoint type for both listening and connecting
resolution — the code recognizes the tag `twisted`, not `described`. -/
theorem C5_counterexample :
    create_listening_endpoint_from_config extW cfgDescribedL "/cb" w0 =
      (.error (.exception "invalid endpoint type described"), w0) ∧
    create_connecting_endpoint_from_config extW cfgDescribedC "/cb" w0 =
      (.error (.exception "invalid endpoint type described"), w0) :=
  ⟨rfl, rfl⟩

/-- C5 (amended): for every configuration whose `type` is `twisted` (the
code tag for externally-described endpoints), listening resolution hands the
`server_string` descriptor unchanged to the generic endpoint-string parser,
and connecting resolution does the same with `client_string`; neither fails
as an invalid type. -/
theorem C5_twisted_passthrough {ext : Ext} {config : Dict} {cbdir : String}
    {w : World} (h : lookupD config "type" = some (.str "twisted")) :
    (∀ v, lookupD config "server_string" = some v →
      create_listening_endpoint_from_config ext config cbdir w =
        (.ok (.serverString v), w)) ∧
    (∀ v, lookupD config "client_string" = some v →
      create_connecting_endpoint_from_config ext config cbdir w =
        (.ok (.clientString v), w)) := by
  constructor
  · intro v hv
    simp [create_listening_endpoint_from_config, bind_def, getItem, h, hv,
      pyEqStr, pure_def]
  · intro v hv
    simp [create_connecting_endpoint_from_config, bind_def, getItem, h, hv,
      pyEqStr, pure_def]

/-- Witness for C5 (amended): concrete `twisted` configs pass their
descriptor strings through. -/
theorem C5_twisted_passthrough_witness :
    create_listening_endpoint_from_config extW cfgTwistedL "/cb" w0 =
      (.ok (.serverString (.str "tcp:9000")), w0) ∧
    create_connecting_endpoint_from_config extW cfgTwistedC "/cb" w0 =
      (.ok (.clientString (.str "tcp:host=h:port=9000")), w0) :=
  ⟨(@C5_twisted_passthrough extW cfgTwistedL "/cb" w0 rfl).1
      (.str "tcp:9000") rfl,
   (@C5_twisted_passthrough extW cfgTwistedC "/cb" w0 rfl).2
      (.str "tcp:host=h:port=9000") rfl⟩

/-- C8: for every configuration whose `type` is none of the recognized code
tags (tcp, unix, twisted, onion for listening; tor additionally for
connecting), both listening and connecting resolution fail with the
invalid-type error naming the type, and leave the world untouched: no
socket is opened and no file is read, written or removed. -/
theorem C8_unknown_type_no_side_effects {ext : Ext} {config : Dict}
    {cbdir : String} {w : World} {t : PyVal}
    (ht : lookupD config "type" = some t)
    (hn : t ∉ ([.str "tcp", .str "unix", .str "twisted", .str "onion",
                .str "tor"] : List PyVal)) :
    create_listening_endpoint_from_config ext config cbdir w =
      (.error (.exception ("invalid endpoint type " ++ pyStr t)), w) ∧
    create_connecting_endpoint_from_config ext config cbdir w =
      (.error (.exception ("invalid endpoint type " ++ pyStr t)), w) := by
  simp only [List.mem_cons, List.mem_singleton, not_or] at hn
  obtain ⟨hn1, hn2, hn3, hn4, hn5, -⟩ := hn
  have e1 := pyEqStr_eq_false hn1
  have e2 := pyEqStr_eq_false hn2
  have e3 := pyEqStr_eq_false hn3
  have e4 := pyEqStr_eq_false hn4
  have e5 := pyEqStr_eq_false hn5
  constructor
  · simp [create_listening_endpoint_from_config, bind_def, getItem, ht,
      e1, e2, e3, e4, pure_def, throwM]
  · simp [create_connecting_endpoint_from_config, bind_def, getItem, ht,
      e1, e2, e3, e5, pure_def, throwM]

/-- Witness for C8: the unrecognized tag `quic` fails both resolutions with
the naming error and without touching the world. -/
theorem C8_unknown_type_no_side_effects_witness :
    create_listening_endpoint_from_config extW cfgQuic "/cb" w0 =
      (.error (.exception ("invalid endpoint type " ++ pyStr (.str "quic"))), w0) ∧
    create_connecting_endpoint_from_config extW cfgQuic "/cb" w0 =
      (.error (.exception ("invalid endpoint type " ++ pyStr (.str "quic"))), w0) :=
  @C8_unknown_type_no_side_effects extW cfgQuic "/cb" w0 (.str "quic")
    rfl (by simp)

/-- Helper: `setD` leaves every other key untouched. -/
theorem lookupD_setD_ne {d : Dict} {k k₂ : String} {v : PyVal} (h : k ≠ k₂) :
    lookupD (setD d k₂ v) k = lookupD d k := by
  have hne : ¬(k₂ = k) := fun he => h he.symm
  induction d with
  | nil => simp [setD, lookupD, hne]
  | cons hd tl ih =>
    obtain ⟨a, b⟩ := hd
    by_cases ha : a = k₂
    · subst ha
      simp [setD, lookupD, hne]
    · simp [setD, ha, lookupD, ih]

/-- C6: the port-resolution prologue of listening-port creation assigns
`config[..port..]` before any transport socket is created, by this policy:
with `portrange` the first port of the inclusive range not already bound,
with absent or null `port` an OS-assigned free port, and otherwise the
configured literal value kept unchanged. -/
theorem C6_port_policy {config : Dict} {w : World} :
    (∀ (lo hi p : Int),
      lookupD config "portrange" = some (.list [.int lo, .int hi]) →
      ((List.range (hi + 1 - lo).toNat).map (fun i => lo + (i : Int))).find?
        (fun q => !w.boundPorts.contains q) = some p →
      resolve_listening_port config w = (.ok (setD config "port" (.int p)), w)) ∧
    (lookupD config "portrange" = none → lookupD config "port" = none →
      resolve_listening_port config w =
        (.ok (setD config "port" (.int w.nextPort)),
         { w with nextPort := w.nextPort + 1 })) ∧
    (lookupD config "portrange" = none → lookupD config "port" = some .pynone →
      resolve_listening_port config w =
        (.ok (setD config "port" (.int w.nextPort)),
         { w with nextPort := w.nextPort + 1 })) ∧
    (∀ v, lookupD config "portrange" = none → lookupD config "port" = some v →
      v ≠ .pynone → resolve_listening_port config w = (.ok config, w)) := by
  refine ⟨?_, ?_, ?_, ?_⟩
  · intro lo hi p hpr hfind
    have hff : first_free_tcp_port (pyStr (getD config "interface" (.str "")))
        lo hi w = (.ok p, w) := by
      unfold first_free_tcp_port
      rw [hfind]
    simp [resolve_listening_port, containsD, hpr, getItem, bind_def, pure_def,
      parsePortrange, hff]
  · intro hpr hp
    simp [resolve_listening_port, containsD, hpr, hp, needsFreePort, bind_def,
      pure_def, get_free_tcp_port]
  · intro hpr hp
    simp [resolve_listening_port, containsD, hpr, hp, needsFreePort, bind_def,
      pure_def, get_free_tcp_port]
  · intro v hpr hp hnn
    cases v <;>
      simp [resolve_listening_port, containsD, hpr, hp, needsFreePort,
        bind_def, pure_def, get_free_tcp_port]
    exact absurd rfl hnn

/-- Witness for C6: on `cfgRange` in `w0` (ports 9000-9002 all free) the
resolved port is 9000, and on `cfgTcp8080` the literal port is kept. -/
theorem C6_port_policy_witness :
    resolve_listening_port cfgRange w0 =
      (.ok (setD cfgRange "port" (.int 9000)), w0) ∧
    resolve_listening_port cfgTcp8080 w0 = (.ok cfgTcp8080, w0) :=
  ⟨(@C6_port_policy cfgRange w0).1 9000 9002 9000 rfl rfl,
   (@C6_port_policy cfgTcp8080 w0).2.2.2 (.int 8080) rfl rfl
     (by simp)⟩

/-- Helper: every successful resolution returns the input dict unchanged or
with only the `port` binding set. -/
theorem resolve_listening_port_shape {config : Dict} {w w₁ : World}
    {out : Dict} (h : resolve_listening_port config w = (.ok out, w₁)) :
    out = config ∨ ∃ p : Int, out = setD config "port" (.int p) := by
  unfold resolve_listening_port at h
  split at h
  · obtain ⟨pr, wa, ha, h⟩ := bind_ok h
    obtain ⟨lh, wb, hb, h⟩ := bind_ok h
    obtain ⟨p, wc, hc, h⟩ := bind_ok h
    rw [pure_def] at h
    have := congrArg Prod.fst h
    simp at this
    exact Or.inr ⟨p, this.symm⟩
  · split at h
    · obtain ⟨p, wb, hb, h⟩ := bind_ok h
      rw [pure_def] at h
      have := congrArg Prod.fst h
      simp at this
      exact Or.inr ⟨p, this.symm⟩
    · rw [pure_def] at h
      have := congrArg Prod.fst h
      simp at this
      exact Or.inl this.symm

/-- Helper: the dict a successful listening-port creation hands back is
exactly the output of the port-resolution prologue. -/
theorem listening_port_dict {ext : Ext} {config : Dict} {cbdir : String}
    {w w' : World} {d : Deferred ListeningPort} {out : Dict}
    (h : create_listening_port_from_config ext config cbdir w =
      (.ok (d, out), w')) :
    ∃ w₁, resolve_listening_port config w = (.ok out, w₁) := by
  unfold create_listening_port_from_config at h
  obtain ⟨cfg1, w1, hres, h⟩ := bind_ok h
  obtain ⟨ty, w2, hty, h⟩ := bind_ok h
  refine ⟨w1, ?_⟩
  have hout : out = cfg1 := by
    split at h
    · obtain ⟨version, wa, ha, h⟩ := bind_ok h
      obtain ⟨interface, wb, hb, h⟩ := bind_ok h
      obtain ⟨pv, wc, hc, h⟩ := bind_ok h
      obtain ⟨prt, wd, hd, h⟩ := bind_ok h
      obtain ⟨backlog, we, he, h⟩ := bind_ok h
      obtain ⟨lp, wf, hf, h⟩ := bind_ok h
      obtain ⟨dd, wg, hg, h⟩ := bind_ok h
      rw [pure_def] at h
      have := congrArg Prod.fst h
      simp at this
      exact this.2.symm
    · obtain ⟨dd, wg, hg, h⟩ := bind_ok h
      rw [pure_def] at h
      have := congrArg Prod.fst h
      simp at this
      exact this.2.symm
  rw [← hout] at hres
  exact hres

/-- Counterexample to C7 as stated: listening-port creation on a `portrange`
config adds a `port` field to the caller's configuration record (the
source assigns `config['port']` in place). -/
theorem C7_counterexample :
    create_listening_port_from_config extW cfgRange "/cb" w0 =
      (.ok (.succeed ⟨9000⟩, cfgRangeOut), wRangeOut) ∧
    lookupD cfgRange "port" = none ∧
    lookupD cfgRangeOut "port" = some (.int 9000) :=
  ⟨rfl, rfl, rfl⟩

/-- C7 (amended): one listening-port-creation call changes the caller's
configuration record at most at the `port` key — every other field keeps its
value — and leaves the record entirely unchanged when `portrange` is absent
and a non-null `port` is configured; the endpoint resolvers and
connecting-port creation take the record by value and return no modified
record at all. -/
theorem C7_config_frame {ext : Ext} {config : Dict} {cbdir : String}
    {w : World} :
    (∀ (d : Deferred ListeningPort) (out : Dict) (w' : World) (k : String),
      create_listening_port_from_config ext config cbdir w =
        (.ok (d, out), w') →
      k ≠ "port" → lookupD out k = lookupD config k) ∧
    (∀ (d : Deferred ListeningPort) (out : Dict) (w' : World) (v : PyVal),
      lookupD config "portrange" = none → lookupD config "port" = some v →
      v ≠ .pynone →
      create_listening_port_from_config ext config cbdir w =
        (.ok (d, out), w') →
      out = config) := by
  constructor
  · intro d out w' k h hk
    obtain ⟨w₁, hres⟩ := listening_port_dict h
    rcases resolve_listening_port_shape hres with hsh | ⟨p, hsh⟩
    · rw [hsh]
    · rw [hsh]
      exact lookupD_setD_ne hk
  · intro d out w' v hpr hp hnn h
    obtain ⟨w₁, hres⟩ := listening_port_dict h
    have hlit : resolve_listening_port config w = (.ok config, w) := by
      have hc : containsD config "portrange" = false := by
        simp [containsD, hpr]
      have hnf : needsFreePort (lookupD config "port") = false := by
        rw [hp]
        cases v <;> simp [needsFreePort]
        exact absurd rfl hnn
      simp [resolve_listening_port, hc, hnf, pure_def]
    rw [hlit] at hres
    have h2 := congrArg Prod.fst hres
    simp at h2
    exact h2.symm

/-- Witness for C7 (amended): on the `portrange` run only `port` changes
(the `type` field is preserved), and on a literal-port run the record is
returned unchanged. -/
theorem C7_config_frame_witness :
    lookupD cfgRangeOut "type" = lookupD cfgRange "type" :=
  (@C7_config_frame extW cfgRange "/cb" w0).1
    (.succeed ⟨9000⟩) cfgRangeOut wRangeOut "type" rfl
    (by decide)

/-- C9: an `_EphemeralOnion.listen` call whose construction-time key read
matches the key file (no interference in between) performs, in this strict
order, the local loopback bind on an OS-assigned port, the control-endpoint
connection, and the publication request mapping the external onion port to
the local port; afterwards the freshly generated private key is persisted
to the key file iff the file did not previously exist (so later runs reuse
it), and an existing key file is left untouched. -/
theorem C9_onion_listen_order {port : PyVal} {fname : String}
    {kd : Option String} {ver : PyVal} {ce : ConnectEndpoint} {w : World}
    (hkd : kd = (fsLookup w.fs fname).map pyStrip)
    (htor : w.torConnectOk = true) (hpub : w.torCreateOk = true) :
    (ListenEndpoint.listen (.ephemeralOnion port fname kd ver ce) w).1 =
      .ok ⟨w.nextPort⟩ ∧
    ((ListenEndpoint.listen (.ephemeralOnion port fname kd ver ce) w).2).events =
      w.events ++ [.bindSocket "127.0.0.1" w.nextPort, .torConnect,
        .torPublish port w.nextPort] ++
        (if (fsLookup w.fs fname).isSome then [] else [.fileWrite fname]) ∧
    ((fsLookup w.fs fname).isSome →
      ((ListenEndpoint.listen (.ephemeralOnion port fname kd ver ce) w).2).fs =
        w.fs) ∧
    (fsLookup w.fs fname = none →
      ((ListenEndpoint.listen (.ephemeralOnion port fname kd ver ce) w).2).fs =
        fsWrite w.fs fname w.torNewKey) := by
  cases hfs : fsLookup w.fs fname <;>
    simp_all [ListenEndpoint.listen, ListenEndpoint.listen.persistKeyIfNew,
      bindTcp, torConnectM, createOnionServiceM, pathExists, writeFile,
      bind_def, pure_def, hfs]

/-- Witness for C9: a fresh onion service in `w0` (no key file) binds,
connects, publishes — in that order — and then persists the generated key. -/
theorem C9_onion_listen_order_witness :
    (ListenEndpoint.listen onionEp w0).1 = .ok ⟨1025⟩ ∧
    ((ListenEndpoint.listen onionEp w0).2).events =
      [.bindSocket "127.0.0.1" 1025, .torConnect,
       .torPublish (.int 80) 1025, .fileWrite "/cb/onion.key"] ∧
    ((ListenEndpoint.listen onionEp w0).2).fs =
      fsWrite w0.fs "/cb/onion.key" w0.torNewKey := by
  obtain ⟨h1, h2, -, h4⟩ := @C9_onion_listen_order (.int 80) "/cb/onion.key"
    none (.int 3) (.unixClient "/var/run/tor/control" 10) w0 rfl rfl rfl
  exact ⟨h1, by simpa using h2, h4 rfl⟩

/-- Helper: `tryDefer` never raises. -/
theorem tryDefer_fst_ok {α : Type} (m : M α) (w : World) :
    ∃ d w', tryDefer m w = (.ok d, w') := by
  unfold tryDefer
  rcases m w with ⟨r, w₂⟩
  cases r <;> exact ⟨_, _, rfl⟩

/-- Helper: a failing first stage makes the whole bind fail the same way. -/
theorem bind_error {α β : Type} {x : M α} {e : PErr} {w w₁ : World}
    (h : x w = (.error e, w₁)) (f : α → M β) :
    (x >>= f) w = (.error e, w₁) := by
  show (match x w with
    | (.ok a, w₂) => f a w₂
    | (.error e₂, w₂) => ((Except.error e₂ : Except PErr β), w₂)) = (.error e, w₁)
  rw [h]

/-- Whether a run result is a success (its failure would be an exception the
caller sees synchronously). -/
def resultOk {α : Type} (r : Except PErr α × World) : Bool :=
  match r.1 with
  | .ok _ => true
  | .error _ => false

/-- Counterexample to C10 as stated: listening-port creation on a shared
`tcp` config with `tls` and `version` 6 raises the configuration error
synchronously (the shared path builds the TLS context and dispatches on the
version outside any try/except), instead of returning a failed Deferred. -/
theorem C10_counterexample :
    create_listening_port_from_config extW cfgSharedTls6 "/cb" w0 =
      (.error (.exception "TLS on IPv6 not implemented"), w0c) :=
  rfl

/-- C10 (amended): listening-port creation never raises synchronously on the
generic (non-shared) endpoint path once port resolution has succeeded —
every construction or listen failure there is converted into a failed
Deferred — while port-resolution failures and shared-path construction
errors raise synchronously (see the counterexample); connecting-port
creation propagates every endpoint-construction error synchronously. -/
theorem C10_sync_async_split {ext : Ext} {config : Dict} {cbdir : String}
    {w : World} :
    (∀ (cfg1 : Dict) (w₁ : World) (ty : PyVal),
      resolve_listening_port config w = (.ok cfg1, w₁) →
      lookupD cfg1 "type" = some ty →
      usesSharedPortPath cfg1 ty = false →
      resultOk (create_listening_port_from_config ext config cbdir w) = true) ∧
    (∀ (e : PErr) (w' : World),
      create_connecting_endpoint_from_config ext config cbdir w =
        (.error e, w') →
      create_connecting_port_from_config ext config cbdir w =
        (.error e, w')) := by
  constructor
  · intro cfg1 w₁ ty hres hty hcond
    have hty2 : getItem cfg1 "type" w₁ = (.ok ty, w₁) := by
      unfold getItem
      rw [hty]
      simp [pure_def]
    have key : ∀ (m : M ListeningPort),
        resultOk ((tryDefer m >>= fun d =>
          (pure (d, cfg1) : M (Deferred ListeningPort × Dict))) w₁) = true := by
      intro m
      obtain ⟨d, w₂, hd⟩ := tryDefer_fst_ok m w₁
      simp [bind_def, hd, pure_def, resultOk]
    simp [create_listening_port_from_config, bind_def, hres, hty2, hcond,
      resultOk]
    exact key _
  · intro e w' h
    unfold create_connecting_port_from_config
    exact bind_error h _

/-- Witness for C10 (amended): a plain literal-port tcp config yields a
success result (no synchronous raise), and a connecting config with an
unknown type propagates the construction error synchronously. -/
theorem C10_sync_async_split_witness :
    resultOk (create_listening_port_from_config extW cfgTcp8080 "/cb" w0) =
      true ∧
    create_connecting_port_from_config extW cfgQuic "/cb" w0 =
      (.error (.exception ("invalid endpoint type " ++ pyStr (.str "quic"))), w0) :=
  ⟨(@C10_sync_async_split extW cfgTcp8080 "/cb" w0).1
      cfgTcp8080 w0 (.str "tcp") rfl rfl rfl,
   (@C10_sync_async_split extW cfgQuic "/cb" w0).2
      (.exception ("invalid endpoint type " ++ pyStr (.str "quic")))
      w0 rfl⟩

end Crossbar
